import Mathlib

/-!
Shallow embedding of the tool-calling CLI orchestrator of this repository:
a command-line chatbot that forwards user text to a generative model with
function-calling enabled, dispatches the model's tool-call requests to
Blockscout query handlers, feeds the results back, and prints a final answer.

Definitions are translated from `src/src/cli.ts` (the primary variant) and
from the unnamed variant `src/unnamed/part_001`; the Blockscout client
`src/unnamed/part_000` is modelled as an environment of endpoint behaviours.
Debug logging (`debug(...)`) has no effect on any computed value and is
omitted throughout.
-/

/-- JavaScript-like runtime values. Numbers are modelled as integers, which
covers every numeric value the embedded code manipulates (HTTP status codes,
counts, limits, priorities). -/
inductive Js where
  | str (s : String)
  | num (n : Int)
  | bool (b : Bool)
  | null
  | undef
  | arr (elems : List Js)
  | obj (fields : List (String × Js))

/-- JavaScript truthiness: empty strings, zero, `false`, `null` and
`undefined` are falsy; arrays and objects are always truthy. -/
def truthy : Js → Bool
  | Js.str s => s != ""
  | Js.num n => n != 0
  | Js.bool b => b
  | Js.null => false
  | Js.undef => false
  | Js.arr _ => true
  | Js.obj _ => true

/-- The JavaScript `a || b` operator: the left operand when truthy,
otherwise the right operand. -/
def jsOr (a b : Js) : Js := if truthy a then a else b

/-- Field lookup in an object literal, first binding wins; a missing key
reads as `undefined`. -/
def jsGetFields : List (String × Js) → String → Js
  | [], _ => Js.undef
  | (k, v) :: rest, key => if k = key then v else jsGetFields rest key

/-- JavaScript property access `o.k`. Access on a non-object yields
`undefined` (the embedded code only dereferences schema-conforming data;
the null / undefined TypeError case is modelled separately by `jsGetE`
where the source has no optional chaining guard on model-supplied data). -/
def jsGet : Js → String → Js
  | Js.obj fields, key => jsGetFields fields key
  | _, _ => Js.undef

/-- Optional chaining `o.k1?.k2`: nullish `o.k1` short-circuits to
`undefined`. -/
def jsGetOpt (o : Js) (k1 k2 : String) : Js :=
  match jsGet o k1 with
  | Js.null => Js.undef
  | Js.undef => Js.undef
  | v => jsGet v k2

/-- Strict equality test of a value against a string literal
(`v === "lit"`). -/
def jsEqStr : Js → String → Bool
  | Js.str s, t => s == t
  | _, _ => false

/-- Property access that can throw: `o.k` raises a TypeError when `o` is
null or undefined. Used for `src/unnamed/part_001`, whose dispatcher reads
`args.address` etc. with no guard. -/
def jsGetE : Js → String → Except String Js
  | Js.null, key => Except.error ("Cannot read properties of null (reading " ++ key ++ ")")
  | Js.undef, key => Except.error ("Cannot read properties of undefined (reading " ++ key ++ ")")
  | v, key => Except.ok (jsGet v key)

/-- Template-literal conversion of a value to a string, as in
interpolations like `${item.address_hash || item.address}`. The source only
interpolates primitive values (addresses, statuses, names); array
stringification is abbreviated to the empty join. -/
def jsShow : Js → String
  | Js.str s => s
  | Js.num n => toString n
  | Js.bool b => if b then "true" else "false"
  | Js.null => "null"
  | Js.undef => "undefined"
  | Js.arr _ => ""
  | Js.obj _ => "[object Object]"

/-- The `data.items` list of a paginated Blockscout payload; a missing
`items` field reads as the empty list (the `|| []` in the source). Per the
API schema `items`, when present, is an array. -/
def jsItems (data : Js) : List Js :=
  match jsGet data "items" with
  | Js.arr xs => xs
  | _ => []

/-- Numeric coercion of an `Array.slice` bound. The declared schemas make
`limit` / `count` numbers, so only the numeric case is exercised. -/
def jsToNat : Js → Nat
  | Js.num n => n.toNat
  | _ => 0

/-- The `query.endsWith(".eth")` test, stated over the character data so
that it evaluates by kernel reduction. -/
def jsEndsWith (s suffix : String) : Bool := suffix.data.isSuffixOf s.data

/-- Error tagging convention of the tool handlers: every failure outcome is
a string starting with the cross-mark character, while success payloads are
structured objects or arrays. -/
def isErrorTagged : Js → Bool
  | Js.str s => decide (s.data.take 1 = ['❌'])
  | _ => false

/-- Resolved HTTP response of the Blockscout client (`useApi` in
`src/unnamed/part_000`). -/
structure ApiResp where
  status : Nat
  data : Js

/-- Outcome of one outbound API call: it resolves with a status and data, or
it throws (network failure, rejected fetch). -/
inductive ApiCall where
  | resolved (resp : ApiResp)
  | thrown (msg : String)

/-- Behaviour of each Blockscout endpoint the handlers query, one field per
endpoint used in the source, keyed by the path argument where one exists. -/
structure Env where
  addresses : Js → ApiCall
  addressTransactions : Js → ApiCall
  tokenBalances : Js → ApiCall
  tokens : Js → ApiCall
  transactions : Js → ApiCall
  blocks : ApiCall
  search : Js → ApiCall
  stats : ApiCall

/-- The catch clause shared by every tool handler: a thrown error becomes
the tagged string `❌ Error: <message>` instead of propagating. -/
def runCatch (body : Except String Js) : Js :=
  match body with
  | Except.ok v => v
  | Except.error e => Js.str ("❌ Error: " ++ e)

/-- Try-block of `getAddressInfo` in `src/src/cli.ts`. -/
def getAddressInfoBody (env : Env) (address : Js) : Except String Js :=
  match env.addresses address with
  | ApiCall.thrown e => Except.error e
  | ApiCall.resolved resp =>
    if resp.status ≠ 200 then
      Except.ok (Js.str ("❌ Error fetching address info: " ++ toString resp.status))
    else
      Except.ok (Js.obj
        [("address", jsGet resp.data "hash"),
         ("balance", jsOr (jsGet resp.data "coin_balance") (Js.str "0")),
         ("type", Js.str (if truthy (jsGet resp.data "is_contract") then "Contract"
                          else "EOA (Externally Owned Account)")),
         ("verified", jsOr (jsGet resp.data "is_verified") (Js.bool false))])

/-- Tool handler `getAddressInfo`: try-block wrapped in its catch. -/
def getAddressInfo (env : Env) (address : Js) : Js :=
  runCatch (getAddressInfoBody env address)

/-- Try-block of `getAddressTransactions`. -/
def getAddressTransactionsBody (env : Env) (address limit : Js) : Except String Js :=
  match env.addressTransactions address with
  | ApiCall.thrown e => Except.error e
  | ApiCall.resolved resp =>
    if resp.status ≠ 200 then
      Except.ok (Js.str ("❌ Error fetching transactions: " ++ toString resp.status))
    else
      Except.ok (Js.arr (((jsItems resp.data).take (jsToNat limit)).map (fun tx => Js.obj
        [("hash", jsGet tx "hash"),
         ("from", jsGetOpt tx "from" "hash"),
         ("to", jsGetOpt tx "to" "hash"),
         ("value", jsGet tx "value"),
         ("gasUsed", jsGet tx "gas_used"),
         ("status", jsGet tx "status"),
         ("timestamp", jsGet tx "timestamp"),
         ("method", jsGet tx "method")])))

/-- Tool handler `getAddressTransactions`; the default parameter
`limit = 10` applies when the argument is `undefined`. -/
def getAddressTransactions (env : Env) (address limit : Js) : Js :=
  runCatch (getAddressTransactionsBody env address
    (match limit with | Js.undef => Js.num 10 | v => v))

/-- Try-block of `getAddressTokenBalances`; the payload of this endpoint is
the array itself (`data.map(...)`). -/
def getAddressTokenBalancesBody (env : Env) (address : Js) : Except String Js :=
  match env.tokenBalances address with
  | ApiCall.thrown e => Except.error e
  | ApiCall.resolved resp =>
    if resp.status ≠ 200 then
      Except.ok (Js.str ("❌ Error fetching token balances: " ++ toString resp.status))
    else
      match resp.data with
      | Js.arr balances =>
        Except.ok (Js.arr (balances.map (fun b => Js.obj
          [("token", Js.obj
             [("name", jsGet (jsGet b "token") "name"),
              ("symbol", jsGet (jsGet b "token") "symbol"),
              ("address", jsGet (jsGet b "token") "address")]),
           ("value", jsGet b "value"),
           ("valueFloat", jsGet b "value_float")])))
      | _ => Except.error "data.map is not a function"

/-- Tool handler `getAddressTokenBalances`. -/
def getAddressTokenBalances (env : Env) (address : Js) : Js :=
  runCatch (getAddressTokenBalancesBody env address)

/-- Try-block of `getTokenInfo`. -/
def getTokenInfoBody (env : Env) (tokenAddress : Js) : Except String Js :=
  match env.tokens tokenAddress with
  | ApiCall.thrown e => Except.error e
  | ApiCall.resolved resp =>
    if resp.status ≠ 200 then
      Except.ok (Js.str ("❌ Error fetching token info: " ++ toString resp.status))
    else
      Except.ok (Js.obj
        [("name", jsGet resp.data "name"),
         ("symbol", jsGet resp.data "symbol"),
         ("decimals", jsGet resp.data "decimals"),
         ("totalSupply", jsGet resp.data "total_supply"),
         ("holderCount", jsGet resp.data "holders"),
         ("transferCount", Js.str "N/A"),
         ("type", jsGet resp.data "type")])

/-- Tool handler `getTokenInfo`. -/
def getTokenInfo (env : Env) (tokenAddress : Js) : Js :=
  runCatch (getTokenInfoBody env tokenAddress)

/-- Try-block of `getTransactionInfo`. -/
def getTransactionInfoBody (env : Env) (txHash : Js) : Except String Js :=
  match env.transactions txHash with
  | ApiCall.thrown e => Except.error e
  | ApiCall.resolved resp =>
    if resp.status ≠ 200 then
      Except.ok (Js.str ("❌ Error fetching transaction: " ++ toString resp.status))
    else
      Except.ok (Js.obj
        [("hash", jsGet resp.data "hash"),
         ("from", jsGetOpt resp.data "from" "hash"),
         ("to", jsGetOpt resp.data "to" "hash"),
         ("value", jsGet resp.data "value"),
         ("gasUsed", jsGet resp.data "gas_used"),
         ("gasLimit", jsGet resp.data "gas_limit"),
         ("gasPrice", jsGet resp.data "gas_price"),
         ("status", jsGet resp.data "status"),
         ("blockNumber", jsGet resp.data "block_number"),
         ("timestamp", jsGet resp.data "timestamp"),
         ("method", jsGet resp.data "method"),
         ("fee", jsGet resp.data "fee")])

/-- Tool handler `getTransactionInfo`. -/
def getTransactionInfo (env : Env) (txHash : Js) : Js :=
  runCatch (getTransactionInfoBody env txHash)

/-- Try-block of `getLatestBlocks`. -/
def getLatestBlocksBody (env : Env) (count : Js) : Except String Js :=
  match env.blocks with
  | ApiCall.thrown e => Except.error e
  | ApiCall.resolved resp =>
    if resp.status ≠ 200 then
      Except.ok (Js.str ("❌ Error fetching blocks: " ++ toString resp.status))
    else
      Except.ok (Js.arr (((jsItems resp.data).take (jsToNat count)).map (fun block => Js.obj
        [("number", jsGet block "height"),
         ("hash", jsGet block "hash"),
         ("timestamp", jsGet block "timestamp"),
         ("transactionCount", jsGet block "transaction_count"),
         ("miner", jsGetOpt block "miner" "hash"),
         ("gasUsed", jsGet block "gas_used"),
         ("gasLimit", jsGet block "gas_limit")])))

/-- Tool handler `getLatestBlocks`; the default parameter `count = 5`
applies when the argument is `undefined`. -/
def getLatestBlocks (env : Env) (count : Js) : Js :=
  runCatch (getLatestBlocksBody env
    (match count with | Js.undef => Js.num 5 | v => v))

/-- Try-block of `getNetworkStats`. -/
def getNetworkStatsBody (env : Env) : Except String Js :=
  match env.stats with
  | ApiCall.thrown e => Except.error e
  | ApiCall.resolved resp =>
    if resp.status ≠ 200 then
      Except.ok (Js.str ("❌ Error fetching network stats: " ++ toString resp.status))
    else
      Except.ok (Js.obj
        [("totalBlocks", jsGet resp.data "total_blocks"),
         ("totalTransactions", jsGet resp.data "total_transactions"),
         ("totalAddresses", jsGet resp.data "total_addresses"),
         ("averageBlockTime", jsGet resp.data "average_block_time"),
         ("networkUtilization", jsGet resp.data "network_utilization_percentage")])

/-- Tool handler `getNetworkStats`. -/
def getNetworkStats (env : Env) : Js :=
  runCatch (getNetworkStatsBody env)

/-- The `find` predicate of the ENS-resolution step in `searchBlockchain`
(`src/src/cli.ts`): an item of type `ens_domain` or `address` whose
`address_hash || address` is truthy. -/
def ensFindPred (item : Js) : Bool :=
  (jsEqStr (jsGet item "type") "ens_domain" || jsEqStr (jsGet item "type") "address") &&
  truthy (jsOr (jsGet item "address_hash") (jsGet item "address"))

/-- Per-item processing step of `searchBlockchain`: the base fields followed
by the type-specific fields, mirroring the conditional mutation of `result`
in the source. -/
def processSearchItem (query : String) (item : Js) : Js :=
  Js.obj
    ([("type", jsGet item "type"),
      ("name", jsOr (jsGet item "name") (Js.str "Unknown")),
      ("priority", jsOr (jsGet item "priority") (Js.num 0))] ++
     (if jsEqStr (jsGet item "type") "address" then
        [("address", jsOr (jsGet item "address_hash") (jsGet item "address")),
         ("isContract", jsOr (jsGet item "is_smart_contract_verified") (Js.bool false)),
         ("url", jsOr (jsGet item "url") (jsGet item "address_url")),
         ("certified", jsOr (jsGet item "certified") (Js.bool false))] ++
        (if truthy (jsGet item "ens_info") then
           [("ensName", jsGet (jsGet item "ens_info") "name"),
            ("ensNamesCount", jsGet (jsGet item "ens_info") "names_count")]
         else [])
      else if jsEqStr (jsGet item "type") "ens_domain" then
        [("address", jsOr (jsGet item "address_hash") (jsGet item "address")),
         ("ensName", jsGetOpt item "ens_info" "name"),
         ("isContract", jsOr (jsGet item "is_smart_contract_verified") (Js.bool false)),
         ("url", jsOr (jsGet item "url") (jsGet item "address_url"))] ++
        (if jsEndsWith query ".eth" then
           [("ensResolution", Js.str (query ++ " resolves to " ++
              jsShow (jsOr (jsGet item "address_hash") (jsGet item "address"))))]
         else [])
      else if jsEqStr (jsGet item "type") "token" then
        [("address", jsOr (jsGet item "address_hash") (jsGet item "address")),
         ("symbol", jsGet item "symbol"),
         ("tokenType", jsGet item "token_type"),
         ("url", jsGet item "token_url"),
         ("totalSupply", jsGet item "total_supply"),
         ("isVerified", jsOr (jsGet item "is_smart_contract_verified") (Js.bool false)),
         ("isVerifiedAdmin", jsOr (jsGet item "is_verified_via_admin_panel") (Js.bool false)),
         ("certified", jsOr (jsGet item "certified") (Js.bool false))] ++
        (if truthy (jsGet item "circulating_market_cap") then
           [("marketCap", jsGet item "circulating_market_cap")] else []) ++
        (if truthy (jsGet item "exchange_rate") then
           [("price", jsGet item "exchange_rate")] else []) ++
        (if truthy (jsGet item "icon_url") then
           [("iconUrl", jsGet item "icon_url")] else [])
      else if jsEqStr (jsGet item "type") "transaction" then
        [("hash", jsOr (jsGet item "transaction_hash") (jsGet item "tx_hash")),
         ("url", jsGet item "url"),
         ("timestamp", jsGet item "timestamp")]
      else if jsEqStr (jsGet item "type") "block" then
        [("blockNumber", jsGet item "block_number"),
         ("blockHash", jsGet item "block_hash"),
         ("url", jsGet item "url"),
         ("timestamp", jsGet item "timestamp"),
         ("blockType", jsGet item "block_type")]
      else []))

/-- Successful-path processing of `searchBlockchain` (`src/src/cli.ts`):
limit the raw items to 10, process each, resolve an ENS address when the
query ends in `.eth`, and assemble the final result object. -/
def searchProcess (query : String) (data : Js) : Js :=
  Js.obj
    [("query", Js.str query),
     ("resultsCount", Js.num (Int.ofNat (jsItems data).length)),
     ("displayedResults", Js.num (Int.ofNat (((jsItems data).take 10).map (processSearchItem query)).length)),
     ("results", Js.arr (((jsItems data).take 10).map (processSearchItem query))),
     ("resolvedAddress",
       if jsEndsWith query ".eth" then
         match ((jsItems data).take 10).find? ensFindPred with
         | some ensResult => jsOr (jsGet ensResult "address_hash") (jsGet ensResult "address")
         | none => Js.null
       else Js.null),
     ("truncated", Js.bool (decide ((jsItems data).length > 10)))]

/-- Try-block of `searchBlockchain` in `src/src/cli.ts`. A non-string query
reaches `query.endsWith(".eth")` after the status check and throws a
TypeError there, which the catch converts to a tagged error. -/
def searchBlockchainBody (env : Env) (query : Js) : Except String Js :=
  match env.search query with
  | ApiCall.thrown e => Except.error e
  | ApiCall.resolved resp =>
    if resp.status ≠ 200 then
      Except.ok (Js.str ("❌ Error searching: " ++ toString resp.status))
    else
      match query with
      | Js.str q => Except.ok (searchProcess q resp.data)
      | _ => Except.error "query.endsWith is not a function"

/-- Tool handler `searchBlockchain` of `src/src/cli.ts`. -/
def searchBlockchain (env : Env) (query : Js) : Js :=
  runCatch (searchBlockchainBody env query)

/-- Try-block of the `searchBlockchain` variant in `src/unnamed/part_001`,
which returns the raw items with no limiting and no ENS resolution. -/
def searchBlockchainV1Body (env : Env) (query : Js) : Except String Js :=
  match env.search query with
  | ApiCall.thrown e => Except.error e
  | ApiCall.resolved resp =>
    if resp.status ≠ 200 then
      Except.ok (Js.str ("❌ Error searching: " ++ toString resp.status))
    else
      Except.ok (Js.obj [("query", query), ("results", jsOr (jsGet resp.data "items") (Js.arr []))])

/-- Tool handler `searchBlockchain` of `src/unnamed/part_001`. -/
def searchBlockchainV1 (env : Env) (query : Js) : Js :=
  runCatch (searchBlockchainV1Body env query)

/-- Declared schema of one registered tool: its name and the names of its
required parameters, from the `functionDeclarations` array of
`src/src/cli.ts` (descriptions and parameter types guide the model only and
play no role in dispatch). -/
structure FunctionDecl where
  name : String
  requiredParams : List String

/-- The Tool Registry: the eight function declarations of the source, in
order, with their `required` lists. -/
def functionDeclarations : List FunctionDecl :=
  [⟨"getAddressInfo", ["address"]⟩,
   ⟨"getAddressTransactions", ["address"]⟩,
   ⟨"getAddressTokenBalances", ["address"]⟩,
   ⟨"getTokenInfo", ["tokenAddress"]⟩,
   ⟨"getTransactionInfo", ["txHash"]⟩,
   ⟨"getLatestBlocks", []⟩,
   ⟨"searchBlockchain", ["query"]⟩,
   ⟨"getNetworkStats", []⟩]

/-- Names of the registered tools, which coincide with the case labels of
both dispatcher switches. -/
def registeredNames : List String := functionDeclarations.map FunctionDecl.name

/-- Whether a (possibly absent) function-call name matches a registered
tool. -/
def isRegistered : Option String → Bool
  | some s => registeredNames.contains s
  | none => false

/-- Interpolation of a possibly-absent function name, as in the template
`❌ Unknown function: ${name}`. -/
def jsNameStr : Option String → String
  | some s => s
  | none => "undefined"

/-- A model-issued tool-call request (`FunctionCall` of the genai SDK): an
optional correlation id, an optional name, and an arguments value. -/
structure FnCall where
  id : Js
  name : Option String
  args : Js

/-- Tool dispatcher `executeFunction` of `src/src/cli.ts`. The second
component instruments the switch with the name of the handler it invoked
(empty for the default arm), observing handler-invocation counts; the first
component is the value the source returns. `safeArgs` is `args || {}`. -/
def executeFunction (env : Env) (fc : FnCall) : Js × List String :=
  match fc.name with
  | some "getAddressInfo" =>
      (getAddressInfo env (jsGet (jsOr fc.args (Js.obj [])) "address"), ["getAddressInfo"])
  | some "getAddressTransactions" =>
      (getAddressTransactions env (jsGet (jsOr fc.args (Js.obj [])) "address")
        (jsGet (jsOr fc.args (Js.obj [])) "limit"), ["getAddressTransactions"])
  | some "getAddressTokenBalances" =>
      (getAddressTokenBalances env (jsGet (jsOr fc.args (Js.obj [])) "address"),
        ["getAddressTokenBalances"])
  | some "getTokenInfo" =>
      (getTokenInfo env (jsGet (jsOr fc.args (Js.obj [])) "tokenAddress"), ["getTokenInfo"])
  | some "getTransactionInfo" =>
      (getTransactionInfo env (jsGet (jsOr fc.args (Js.obj [])) "txHash"), ["getTransactionInfo"])
  | some "getLatestBlocks" =>
      (getLatestBlocks env (jsGet (jsOr fc.args (Js.obj [])) "count"), ["getLatestBlocks"])
  | some "searchBlockchain" =>
      (searchBlockchain env (jsGet (jsOr fc.args (Js.obj [])) "query"), ["searchBlockchain"])
  | some "getNetworkStats" => (getNetworkStats env, ["getNetworkStats"])
  | nm => (Js.str ("❌ Unknown function: " ++ jsNameStr nm), [])

/-- Tool dispatcher `executeFunction` of `src/unnamed/part_001`. This
variant reads `args.address` etc. directly, so the property reads can throw
(modelled by `jsGetE`); the handlers themselves are the same logic as the
primary variant except for `searchBlockchainV1`. -/
def executeFunctionV1 (env : Env) (fc : FnCall) : Except String Js :=
  match fc.name with
  | some "getAddressInfo" => do
      let a ← jsGetE fc.args "address"
      pure (getAddressInfo env a)
  | some "getAddressTransactions" => do
      let a ← jsGetE fc.args "address"
      let l ← jsGetE fc.args "limit"
      pure (getAddressTransactions env a l)
  | some "getAddressTokenBalances" => do
      let a ← jsGetE fc.args "address"
      pure (getAddressTokenBalances env a)
  | some "getTokenInfo" => do
      let a ← jsGetE fc.args "tokenAddress"
      pure (getTokenInfo env a)
  | some "getTransactionInfo" => do
      let a ← jsGetE fc.args "txHash"
      pure (getTransactionInfo env a)
  | some "getLatestBlocks" => do
      let c ← jsGetE fc.args "count"
      pure (getLatestBlocks env c)
  | some "searchBlockchain" => do
      let q ← jsGetE fc.args "query"
      pure (searchBlockchainV1 env q)
  | some "getNetworkStats" => pure (getNetworkStats env)
  | nm => pure (Js.str ("❌ Unknown function: " ++ jsNameStr nm))

/-- Whether an `Except`-valued dispatch returned normally rather than
throwing to its caller. -/
def returnsOk : Except String Js → Bool
  | Except.ok _ => true
  | Except.error _ => false

/-- A part of a model turn (`Part` of the genai SDK as consumed by
`runChat`): an optional text segment and an optional tool-call request. -/
structure MsgPart where
  text : Option String
  functionCall : Option FnCall

/-- Content of a response candidate: an optional list of parts. -/
structure MsgContent where
  parts : Option (List MsgPart)

/-- One candidate of a model response, with optional content. -/
structure Candidate where
  content : Option MsgContent

/-- A model response as inspected by `runChat`: an optional candidate
list. -/
structure ModelResponse where
  candidates : Option (List Candidate)

/-- Truthiness of `part.text`: present and non-empty. -/
def truthyStr : Option String → Bool
  | some s => s != ""
  | none => false

/-- The parts reachable through `c.content?.parts` (an empty array is
truthy in JavaScript, so `some []` counts as present). -/
def candParts (c : Candidate) : Option (List MsgPart) :=
  match c.content with
  | none => none
  | some ct => ct.parts

/-- The candidate selection `response.candidates?.find((c) => c.content?.parts)`
of `runChat`. -/
def findCandidate (r : ModelResponse) : Option Candidate :=
  match r.candidates with
  | none => none
  | some cs => cs.find? (fun c => (candParts c).isSome)

/-- One step of the part-iteration loop of `runChat`: a truthy text part is
appended to the accumulated text, otherwise a function-call part is
dispatched and its call/result pair appended to `callResults`. -/
def stepPart (env : Env) (acc : String × List (FnCall × Js)) (p : MsgPart) :
    String × List (FnCall × Js) :=
  if truthyStr p.text then (acc.1 ++ p.text.getD "", acc.2)
  else
    match p.functionCall with
    | some fc => (acc.1, acc.2 ++ [(fc, (executeFunction env fc).1)])
    | none => acc

/-- The full part-iteration loop of `runChat` over one candidate turn,
yielding the accumulated text and the ordered `callResults`. -/
def processParts (env : Env) (parts : List MsgPart) : String × List (FnCall × Js) :=
  parts.foldl (stepPart env) ("", [])

/-- The tool-call requests of a model turn, in order of appearance
(a part whose text is truthy is consumed by the text branch first, exactly
as in the source's else-if). -/
def turnCalls : List MsgPart → List FnCall
  | [] => []
  | p :: ps =>
    (if truthyStr p.text then []
     else match p.functionCall with
          | some fc => [fc]
          | none => []) ++ turnCalls ps

/-- The concatenated truthy text segments of a model turn. -/
def textOf : List MsgPart → String
  | [] => ""
  | p :: ps => (if truthyStr p.text then p.text.getD "" else "") ++ textOf ps

/-- One functionResponse part of the feedback message `runChat` sends after
a tool round: `{functionResponse: {name, id, response: {result}}}`. -/
structure FnResponse where
  name : Option String
  id : Js
  response : Js

/-- The feedback message built from `callResults`, in list order. -/
def mkFeedback (callResults : List (FnCall × Js)) : List FnResponse :=
  callResults.map (fun cr => ⟨cr.1.name, cr.1.id, Js.obj [("result", cr.2)]⟩)

/-- Terminal outcome of one `runChat` invocation, distinguishing the three
exits of the source: returning accumulated text, returning undefined
silently (a candidate with neither truthy text nor calls), and falling out
of the loop to the `No response from AI` notice (budget exhausted, or no
candidate found). -/
inductive ChatOutcome where
  | answer (text : String)
  | silentNone
  | noResponseNotice
deriving DecidableEq

/-- Observable result of `runChat`: its outcome, every dispatched call in
dispatch order, the number of tool round-trips performed, and the feedback
messages sent back to the model per round. -/
structure RunChatResult where
  outcome : ChatOutcome
  dispatched : List FnCall
  toolRounds : Nat
  fedBack : List (List FnResponse)

/-- The `while (rounds < 5)` loop of `runChat`: `fuel` is the number of
iterations remaining (five minus the rounds already counted), `idx` indexes
the scripted model's responses (`script k` is the response to the k-th
`sendMessage`), and `resp` is the response under inspection. A response
with tool calls sends the feedback message (fetching the next scripted
response, which may throw) and continues; text returns; otherwise the turn
ends silently; exhausted fuel or a missing candidate reaches the notice. -/
def runChatGo (env : Env) (script : Nat → Except String ModelResponse) :
    Nat → Nat → ModelResponse → Except String RunChatResult
  | 0, _, _ => Except.ok ⟨ChatOutcome.noResponseNotice, [], 0, []⟩
  | fuel + 1, idx, resp =>
    match findCandidate resp with
    | none => Except.ok ⟨ChatOutcome.noResponseNotice, [], 0, []⟩
    | some cand =>
      let pr := processParts env ((candParts cand).getD [])
      if pr.2.length > 0 then
        match script (idx + 1) with
        | Except.error e => Except.error e
        | Except.ok resp2 =>
          match runChatGo env script fuel (idx + 1) resp2 with
          | Except.error e => Except.error e
          | Except.ok r =>
            Except.ok ⟨r.outcome, pr.2.map Prod.fst ++ r.dispatched, r.toolRounds + 1,
                       mkFeedback pr.2 :: r.fedBack⟩
      else if pr.1 ≠ "" then
        Except.ok ⟨ChatOutcome.answer pr.1, [], 0, []⟩
      else
        Except.ok ⟨ChatOutcome.silentNone, [], 0, []⟩

/-- The orchestration loop `runChat` of `src/src/cli.ts`, run against a
scripted model: the initial `chat.sendMessage` yields `script 0`, each
feedback message yields the next scripted response, and the loop budget is
five. A scripted response of `Except.error` models a model-API failure,
which `runChat` does not catch. -/
def runChat (env : Env) (script : Nat → Except String ModelResponse) :
    Except String RunChatResult :=
  match script 0 with
  | Except.error e => Except.error e
  | Except.ok r0 => runChatGo env script 5 0 r0

/-- A scripted model that never fails at the API level. -/
def pureScript (s : Nat → ModelResponse) : Nat → Except String ModelResponse :=
  fun k => Except.ok (s k)

/-- A model response that requests at least one tool call: its selected
candidate's parts contain a dispatched call. -/
def hasToolCallResp (r : ModelResponse) : Prop :=
  ∃ cand, findCandidate r = some cand ∧ turnCalls ((candParts cand).getD []) ≠ []

/-- Events observable from the interactive loop `startChat` of
`src/src/cli.ts`: a completed assistant turn for an input, a failed turn
with the printed error line, and the goodbye on exit. -/
inductive ReplEvent where
  | turnDone (input : String)
  | turnFailed (input : String) (printed : String)
  | goodbye
deriving DecidableEq

/-- The input a REPL event was produced for, when any. -/
def eventInput : ReplEvent → Option String
  | ReplEvent.turnDone i => some i
  | ReplEvent.turnFailed i _ => some i
  | ReplEvent.goodbye => none

/-- The `toLowerCase()` conversion applied to user input before the exit
check, lowering each character (stated over the character data so that it
evaluates by kernel reduction). -/
def jsToLower (s : String) : String := ⟨s.data.map Char.toLower⟩

/-- The `while (true)` loop of `startChat` (`src/src/cli.ts`), run over a
list of input lines. `turn` abstracts `runChat chat input` together with
the chat collaborator's internal state of type `σ`; a turn that throws is
caught by the try/catch of the loop body, the error line is printed, and
the loop proceeds to the next input. An input equal to `exit` after
`toLowerCase` breaks the loop. The variant in `src/unnamed/part_001` has
the identical exit check and catch structure. -/
def startChatGo {σ : Type} (turn : σ → String → Except String σ) :
    σ → List String → List ReplEvent
  | _, [] => []
  | st, input :: rest =>
    if jsToLower input = "exit" then [ReplEvent.goodbye]
    else
      match turn st input with
      | Except.ok st2 => ReplEvent.turnDone input :: startChatGo turn st2 rest
      | Except.error e => ReplEvent.turnFailed input ("❌ Error: " ++ e) :: startChatGo turn st rest

/-- A part of a history entry in `src/unnamed/part_001`: text, a function
call, or a function response (the serialized payload is kept structured;
the `JSON.stringify` pretty-printing does not affect turn structure). -/
inductive HPart where
  | htext (s : String)
  | hcall (fc : FnCall)
  | hresponse (name : Option String) (response : Js)

/-- One entry of `chatHistory` in `src/unnamed/part_001`: a role and a part
list. -/
structure HContent where
  role : String
  parts : List HPart

/-- A user text turn pushed onto the history. -/
def userTextContent (t : String) : HContent := ⟨"user", [HPart.htext t]⟩

/-- The model turn echoing the tool-call requests. -/
def modelCallsContent (calls : List FnCall) : HContent := ⟨"model", calls.map HPart.hcall⟩

/-- The turn carrying the function responses (pushed with role `user` in
the source). -/
def userResponsesContent (frs : List (Option String × Js)) : HContent :=
  ⟨"user", frs.map (fun fr => HPart.hresponse fr.1 (Js.obj [("result", fr.2)]))⟩

/-- The model turn carrying the assistant's text. -/
def modelTextContent (t : String) : HContent := ⟨"model", [HPart.htext t]⟩

/-- The history-trimming step of `src/unnamed/part_001`:
`if (chatHistory.length > 40) chatHistory.splice(0, chatHistory.length - 40)`,
keeping the most recent forty entries. -/
def trimHistory (h : List HContent) : List HContent :=
  if h.length > 40 then h.drop (h.length - 40) else h

/-- Scripted model behaviour for one user turn of `src/unnamed/part_001`:
either a pure text response, or a response with a non-empty function-call
list followed by a scripted final text. -/
inductive TurnScript where
  | textOnly (t : String)
  | withCalls (calls : List FnCall) (finalText : String)

/-- One iteration of the `src/unnamed/part_001` chat loop: push the user
turn; with function calls, dispatch each in order and push the model
call turn, the response turn and the final text; otherwise push the text
response; then trim. A throwing dispatch is caught at the loop boundary,
leaving only the user turn appended (`No response generated` substitutes
for empty text). -/
def applyTurn (env : Env) (h : List HContent) (input : String) (ts : TurnScript) :
    List HContent :=
  match ts with
  | TurnScript.textOnly t =>
      trimHistory ((h ++ [userTextContent input]) ++
        [modelTextContent (if t = "" then "No response generated" else t)])
  | TurnScript.withCalls calls finalText =>
      match calls.mapM (fun fc => (executeFunctionV1 env fc).map (fun r => (fc.name, r))) with
      | Except.error _ => h ++ [userTextContent input]
      | Except.ok frs =>
          trimHistory ((h ++ [userTextContent input]) ++
            [modelCallsContent calls, userResponsesContent frs,
             modelTextContent (if finalText = "" then "No response generated" else finalText)])

/-- The interactive loop of `src/unnamed/part_001` over a list of scripted
user turns, accumulating the chat history (an `exit` input stops). -/
def runSession (env : Env) : List HContent → List (String × TurnScript) → List HContent
  | h, [] => h
  | h, (input, ts) :: rest =>
    if jsToLower input = "exit" then h
    else runSession env (applyTurn env h input ts) rest

/-- Whether a history entry contains a tool-call request. -/
def hasCallPart (c : HContent) : Bool :=
  c.parts.any (fun p => match p with | HPart.hcall _ => true | _ => false)

/-- Whether a history entry contains a tool result. -/
def hasResponsePart (c : HContent) : Bool :=
  c.parts.any (fun p => match p with | HPart.hresponse _ _ => true | _ => false)

/-- An endpoint that resolves with status 200 and the given data. -/
def ok200 (d : Js) : ApiCall := ApiCall.resolved ⟨200, d⟩

/-- A concrete environment whose endpoints all succeed with empty
payloads. -/
def envW : Env :=
  ⟨fun _ => ok200 (Js.obj []), fun _ => ok200 (Js.obj []), fun _ => ok200 (Js.arr []),
   fun _ => ok200 (Js.obj []), fun _ => ok200 (Js.obj []), ok200 (Js.obj []),
   fun _ => ok200 (Js.obj []), ok200 (Js.obj [])⟩

/-- A concrete environment whose endpoints all throw. -/
def envThrow : Env :=
  ⟨fun _ => ApiCall.thrown "boom", fun _ => ApiCall.thrown "boom",
   fun _ => ApiCall.thrown "boom", fun _ => ApiCall.thrown "boom",
   fun _ => ApiCall.thrown "boom", ApiCall.thrown "boom",
   fun _ => ApiCall.thrown "boom", ApiCall.thrown "boom"⟩

/-- A concrete tool-call request for the parameterless tool. -/
def fcW : FnCall := ⟨Js.undef, some "getNetworkStats", Js.obj []⟩

/-- A model part carrying only the call `fcW`. -/
def partCallW : MsgPart := ⟨none, some fcW⟩

/-- A candidate whose content parts consist of the single call part. -/
def candW : Candidate := ⟨some ⟨some [partCallW]⟩⟩

/-- A scripted model that requests a tool call on every round. -/
def sAlwaysCall : Nat → ModelResponse := fun _ => ⟨some [candW]⟩

/-- A scripted model whose responses carry no candidates at all. -/
def sNoCand : Nat → ModelResponse := fun _ => ⟨none⟩

/-- A model part carrying only text. -/
def partTextW : MsgPart := ⟨some "hello", none⟩

/-- A candidate bearing the single text part. -/
def candTextW : Candidate := ⟨some ⟨some [partTextW]⟩⟩

/-- A scripted model that answers with pure text on every round. -/
def sTextW : Nat → ModelResponse := fun _ => ⟨some [candTextW]⟩

/-- A candidate with an empty part list (truthy in JavaScript, so it is
selected by the candidate search). -/
def candEmptyW : Candidate := ⟨some ⟨some []⟩⟩

/-- A scripted model whose candidate has neither text nor tool calls. -/
def sEmptyW : Nat → ModelResponse := fun _ => ⟨some [candEmptyW]⟩

/-- A turn behaviour that always fails at the model API. -/
def turnFail : Unit → String → Except String Unit :=
  fun _ _ => Except.error "network"

/-- A scripted `src/unnamed/part_001` session: the first user turn performs
one tool call (four history entries), followed by nineteen text-only turns
(two entries each), driving the history to forty-two entries so that the
final trim drops two entries. -/
def sessionC4 : List (String × TurnScript) :=
  ("q0", TurnScript.withCalls [fcW] "a0") :: List.replicate 19 ("q", TurnScript.textOnly "a")

/-- A concrete ENS search item of type `ens_domain` with an address hash. -/
def itemEnsW : Js := Js.obj [("type", Js.str "ens_domain"), ("address_hash", Js.str "0xabc")]

/-- Concrete raw search items: a token item first, then the ENS item. -/
def itemsC10 : List Js := [Js.obj [("type", Js.str "token")], itemEnsW]

/-- An environment whose search endpoint returns the concrete items. -/
def envC10 : Env :=
  ⟨fun _ => ok200 (Js.obj []), fun _ => ok200 (Js.obj []), fun _ => ok200 (Js.arr []),
   fun _ => ok200 (Js.obj []), fun _ => ok200 (Js.obj []), ok200 (Js.obj []),
   fun _ => ok200 (Js.obj [("items", Js.arr itemsC10)]), ok200 (Js.obj [])⟩

/-- The predicate of the amended C10 reading, phrased over a returned
(processed) result: its `type` field is `ens_domain` or `address` and its
`address` field is truthy. -/
def returnedEnsPred (r : Js) : Bool :=
  (jsEqStr (jsGet r "type") "ens_domain" || jsEqStr (jsGet r "type") "address") &&
  truthy (jsGet r "address")

/-- The outcome component of a `runChat` run, when it did not throw. -/
def chatOutcomeOf (x : Except String RunChatResult) : Option ChatOutcome :=
  match x with
  | Except.ok r => some r.outcome
  | Except.error _ => none

/-- The number of tool round-trips of a `runChat` run, when it did not
throw. -/
def chatToolRoundsOf (x : Except String RunChatResult) : Option Nat :=
  match x with
  | Except.ok r => some r.toolRounds
  | Except.error _ => none

/-- The dispatched calls of a `runChat` run, when it did not throw. -/
def chatDispatchedOf (x : Except String RunChatResult) : Option (List FnCall) :=
  match x with
  | Except.ok r => some r.dispatched
  | Except.error _ => none

theorem truthy_jsOr (a b : Js) : truthy (jsOr a b) = (truthy a || truthy b) := by
  unfold jsOr
  by_cases h : truthy a <;> simp [h]

theorem jsEqStr_iff (v : Js) (t : String) : jsEqStr v t = true ↔ v = Js.str t := by
  cases v <;> simp [jsEqStr]

theorem find?_map_local {α β : Type} (f : α → β) (p : β → Bool) (l : List α) :
    (l.map f).find? p = (l.find? (fun a => p (f a))).map f := by
  induction l with
  | nil => rfl
  | cons a l ih =>
    by_cases h : p (f a) <;> simp [List.find?, h, ih]

theorem processSearchItem_type (q : String) (it : Js) :
    jsGet (processSearchItem q it) "type" = jsGet it "type" := rfl

theorem processSearchItem_address (q : String) (it : Js)
    (h : (jsEqStr (jsGet it "type") "ens_domain" || jsEqStr (jsGet it "type") "address") = true) :
    jsGet (processSearchItem q it) "address" =
      jsOr (jsGet it "address_hash") (jsGet it "address") := by
  rcases Bool.or_eq_true_iff.mp h with he | ha
  · have hne : ¬ (jsEqStr (jsGet it "type") "address" = true) := by
      rw [(jsEqStr_iff _ _).mp he]
      simp [jsEqStr]
    unfold processSearchItem
    rw [if_neg hne, if_pos he]
    rfl
  · unfold processSearchItem
    rw [if_pos ha]
    rfl

theorem returnedEnsPred_processed (q : String) (it : Js) :
    returnedEnsPred (processSearchItem q it) = ensFindPred it := by
  unfold returnedEnsPred ensFindPred
  rw [processSearchItem_type]
  rcases Bool.eq_false_or_eq_true
      (jsEqStr (jsGet it "type") "ens_domain" || jsEqStr (jsGet it "type") "address") with ht | hf
  · rw [ht, Bool.true_and, Bool.true_and, processSearchItem_address q it ht, truthy_jsOr]
  · rw [hf, Bool.false_and, Bool.false_and]

theorem findEns_processed (q : String) (l : List Js) :
    (l.map (processSearchItem q)).find? returnedEnsPred =
      (l.find? ensFindPred).map (processSearchItem q) := by
  rw [find?_map_local]
  rw [show (fun a => returnedEnsPred (processSearchItem q a)) = ensFindPred from
      funext fun a => returnedEnsPred_processed q a]

theorem processParts_go (env : Env) (parts : List MsgPart) :
    ∀ acc : String × List (FnCall × Js),
      parts.foldl (stepPart env) acc =
        (acc.1 ++ textOf parts,
         acc.2 ++ (turnCalls parts).map (fun c => (c, (executeFunction env c).1))) := by
  induction parts with
  | nil => intro acc; simp [textOf, turnCalls]
  | cons p ps ih =>
    intro acc
    by_cases ht : truthyStr p.text
    · simp [List.foldl, stepPart, ht, ih, textOf, turnCalls, String.append_assoc]
    · cases hfc : p.functionCall with
      | some fc =>
        simp [List.foldl, stepPart, ht, hfc, ih, textOf, turnCalls, List.append_assoc]
      | none =>
        simp [List.foldl, stepPart, ht, hfc, ih, textOf, turnCalls]

theorem processParts_spec (env : Env) (parts : List MsgPart) :
    processParts env parts =
      (textOf parts, (turnCalls parts).map (fun c => (c, (executeFunction env c).1))) := by
  unfold processParts
  rw [processParts_go]
  simp

theorem runChatGo_always_calls (env : Env) (s : Nat → ModelResponse)
    (h : ∀ k, hasToolCallResp (s k)) :
    ∀ fuel idx, ∃ res : RunChatResult,
      runChatGo env (pureScript s) fuel idx (s idx) = Except.ok res ∧
      res.outcome = ChatOutcome.noResponseNotice ∧ res.toolRounds = fuel := by
  intro fuel
  induction fuel with
  | zero =>
    intro idx
    exact ⟨⟨ChatOutcome.noResponseNotice, [], 0, []⟩, rfl, rfl, rfl⟩
  | succ n ih =>
    intro idx
    obtain ⟨cand, hc, hne⟩ := h idx
    obtain ⟨res, hres, hout, hrounds⟩ := ih (idx + 1)
    have hlen : 0 < (processParts env ((candParts cand).getD [])).2.length := by
      rw [processParts_spec]
      simpa using List.length_pos.mpr hne
    have heq : runChatGo env (pureScript s) (n + 1) idx (s idx) =
        Except.ok ⟨res.outcome,
          (processParts env ((candParts cand).getD [])).2.map Prod.fst ++ res.dispatched,
          res.toolRounds + 1,
          mkFeedback (processParts env ((candParts cand).getD [])).2 :: res.fedBack⟩ := by
      simp only [runChatGo, hc]
      rw [if_pos hlen]
      simp only [pureScript]
      rw [hres]
    exact ⟨_, heq, hout, by rw [hrounds]⟩

/-- C1: against a scripted model that requests a tool call on every round,
the orchestration loop terminates with the budget-exhausted notice
(`No response from AI`, no answer value) after exactly five model-tool
round-trips; it never loops indefinitely. -/
theorem runChat_budget_exhausted (env : Env) (s : Nat → ModelResponse)
    (h : ∀ k, hasToolCallResp (s k)) :
    chatOutcomeOf (runChat env (pureScript s)) = some ChatOutcome.noResponseNotice ∧
    chatToolRoundsOf (runChat env (pureScript s)) = some 5 := by
  obtain ⟨res, hres, hout, hrounds⟩ := runChatGo_always_calls env s h 5 0
  have hrc : runChat env (pureScript s) = Except.ok res := hres
  rw [hrc]
  exact ⟨by simp [chatOutcomeOf, hout], by simp [chatToolRoundsOf, hrounds]⟩

/-- Witness for C1 at a concrete environment and a concrete script that
always requests one `getNetworkStats` call. -/
theorem runChat_budget_exhausted_witness :
    chatOutcomeOf (runChat envW (pureScript sAlwaysCall)) = some ChatOutcome.noResponseNotice ∧
    chatToolRoundsOf (runChat envW (pureScript sAlwaysCall)) = some 5 :=
  runChat_budget_exhausted envW sAlwaysCall
    (fun _ => ⟨candW, rfl, by simp [turnCalls, partCallW, candW, candParts, truthyStr]⟩)

/-- C6: when the first-round model turn has text and no tool-call requests,
the loop returns the accumulated text as the final answer on round one,
with zero dispatched calls and zero tool round-trips. -/
theorem runChat_pure_text_first_round (env : Env) (s : Nat → ModelResponse) (cand : Candidate)
    (h1 : findCandidate (s 0) = some cand)
    (h2 : turnCalls ((candParts cand).getD []) = [])
    (h3 : textOf ((candParts cand).getD []) ≠ "") :
    runChat env (pureScript s) =
      Except.ok ⟨ChatOutcome.answer (textOf ((candParts cand).getD [])), [], 0, []⟩ := by
  have hpr : processParts env ((candParts cand).getD []) =
      (textOf ((candParts cand).getD []), []) := by
    rw [processParts_spec, h2]
    rfl
  show runChatGo env (pureScript s) (4 + 1) 0 (s 0) = _
  simp only [runChatGo, h1, hpr]
  rw [if_neg (by simp), if_pos h3]

/-- Witness for C6 at a concrete script whose first response is the single
text part `hello`. -/
theorem runChat_pure_text_first_round_witness :
    runChat envW (pureScript sTextW) =
      Except.ok ⟨ChatOutcome.answer "hello", [], 0, []⟩ :=
  runChat_pure_text_first_round envW sTextW candTextW rfl rfl (by decide)

/-- C9 (amended): a candidate whose parts contain neither truthy text nor a
tool call ends the user turn in that round with no dispatch and no answer
value, returning silently, which is distinct from both a text answer and
the budget notice; a response with no candidate carrying content parts also
ends the turn with no dispatch and no answer, but produces the very
`No response from AI` notice of budget exhaustion rather than a distinct
outcome. -/
theorem runChat_empty_turn_outcomes (env : Env) (s : Nat → ModelResponse) (cand : Candidate) :
    (findCandidate (s 0) = some cand →
     turnCalls ((candParts cand).getD []) = [] →
     textOf ((candParts cand).getD []) = "" →
     runChat env (pureScript s) = Except.ok ⟨ChatOutcome.silentNone, [], 0, []⟩) ∧
    (findCandidate (s 0) = none →
     runChat env (pureScript s) = Except.ok ⟨ChatOutcome.noResponseNotice, [], 0, []⟩) := by
  constructor
  · intro h1 h2 h3
    have hpr : processParts env ((candParts cand).getD []) =
        (textOf ((candParts cand).getD []), []) := by
      rw [processParts_spec, h2]
      rfl
    show runChatGo env (pureScript s) (4 + 1) 0 (s 0) = _
    simp only [runChatGo, h1, hpr]
    rw [if_neg (by simp), if_neg (by simp [h3])]
  · intro h1
    show runChatGo env (pureScript s) (4 + 1) 0 (s 0) = _
    simp only [runChatGo, h1]

/-- Witness for the amended C9 at concrete scripts: an empty part list, and
a candidate-free response. -/
theorem runChat_empty_turn_outcomes_witness :
    runChat envW (pureScript sEmptyW) = Except.ok ⟨ChatOutcome.silentNone, [], 0, []⟩ ∧
    runChat envW (pureScript sNoCand) = Except.ok ⟨ChatOutcome.noResponseNotice, [], 0, []⟩ :=
  ⟨(runChat_empty_turn_outcomes envW sEmptyW candEmptyW).1 rfl rfl rfl,
   (runChat_empty_turn_outcomes envW sNoCand candEmptyW).2 rfl⟩

/-- Counterexample to C9 as stated: a first-round response with no
candidate terminates the turn with the same `No response from AI` outcome
that budget exhaustion produces (compare the always-calling script), so the
candidate-free case is not distinct from budget exhaustion. -/
theorem runChat_no_candidate_not_distinct :
    chatOutcomeOf (runChat envW (pureScript sNoCand)) = some ChatOutcome.noResponseNotice ∧
    chatOutcomeOf (runChat envW (pureScript sAlwaysCall)) = some ChatOutcome.noResponseNotice ∧
    chatDispatchedOf (runChat envW (pureScript sNoCand)) = some [] :=
  ⟨rfl, rfl, rfl⟩

/-- C5: within one model turn, the tool-call requests are dispatched in the
order they appear among the parts, and the feedback message returned to the
model lists the function responses in that same original order. -/
theorem tool_calls_dispatched_in_order (env : Env) (parts : List MsgPart) :
    (processParts env parts).2.map Prod.fst = turnCalls parts ∧
    mkFeedback (processParts env parts).2 =
      (turnCalls parts).map
        (fun c => ⟨c.name, c.id, Js.obj [("result", (executeFunction env c).1)]⟩) := by
  rw [processParts_spec]
  constructor
  · rw [List.map_map,
      show (Prod.fst ∘ fun c => (c, (executeFunction env c).1)) = id from rfl, List.map_id]
  · simp [mkFeedback]

/-- C2: dispatch never throws to its caller and tags every failure. The
primary dispatcher is a total function; for any tool-call request carrying
an arguments mapping (the Tool Call Request data model), the `part_001`
variant also returns normally; an unregistered name yields the tagged
`❌ Unknown function` result from both dispatchers; and a registered tool
whose handler fails (every endpoint throwing) still yields an error-tagged
result rather than an exception. -/
theorem dispatch_never_throws (env : Env) (idj argsJ : Js) (nm : Option String)
    (fields : List (String × Js)) :
    returnsOk (executeFunctionV1 env ⟨idj, nm, Js.obj fields⟩) = true ∧
    (isRegistered nm = false →
      (executeFunction env ⟨idj, nm, argsJ⟩).1 =
          Js.str ("❌ Unknown function: " ++ jsNameStr nm) ∧
      executeFunctionV1 env ⟨idj, nm, Js.obj fields⟩ =
          Except.ok (Js.str ("❌ Unknown function: " ++ jsNameStr nm)) ∧
      isErrorTagged (Js.str ("❌ Unknown function: " ++ jsNameStr nm)) = true) ∧
    (isRegistered nm = true →
      isErrorTagged (executeFunction envThrow ⟨idj, nm, Js.obj fields⟩).1 = true) := by
  rcases nm with _ | s
  · exact ⟨rfl, fun _ => ⟨rfl, rfl, rfl⟩, fun hreg => absurd hreg (by decide)⟩
  · by_cases h1 : s = "getAddressInfo"
    · subst h1
      exact ⟨rfl, fun hf => absurd hf (by decide), fun _ => rfl⟩
    by_cases h2 : s = "getAddressTransactions"
    · subst h2
      exact ⟨rfl, fun hf => absurd hf (by decide), fun _ => rfl⟩
    by_cases h3 : s = "getAddressTokenBalances"
    · subst h3
      exact ⟨rfl, fun hf => absurd hf (by decide), fun _ => rfl⟩
    by_cases h4 : s = "getTokenInfo"
    · subst h4
      exact ⟨rfl, fun hf => absurd hf (by decide), fun _ => rfl⟩
    by_cases h5 : s = "getTransactionInfo"
    · subst h5
      exact ⟨rfl, fun hf => absurd hf (by decide), fun _ => rfl⟩
    by_cases h6 : s = "getLatestBlocks"
    · subst h6
      exact ⟨rfl, fun hf => absurd hf (by decide), fun _ => rfl⟩
    by_cases h7 : s = "searchBlockchain"
    · subst h7
      exact ⟨rfl, fun hf => absurd hf (by decide), fun _ => rfl⟩
    by_cases h8 : s = "getNetworkStats"
    · subst h8
      exact ⟨rfl, fun hf => absurd hf (by decide), fun _ => rfl⟩
    have hru : isRegistered (some s) = false := by
      simp [isRegistered, registeredNames, functionDeclarations, List.contains_cons,
        h1, h2, h3, h4, h5, h6, h7, h8]
    have hv1 : executeFunctionV1 env ⟨idj, some s, Js.obj fields⟩ =
        Except.ok (Js.str ("❌ Unknown function: " ++ s)) := by
      unfold executeFunctionV1
      split <;> first | rfl | simp_all [jsNameStr]
    have hvc : (executeFunction env ⟨idj, some s, argsJ⟩).1 =
        Js.str ("❌ Unknown function: " ++ s) := by
      unfold executeFunction
      split <;> first | rfl | simp_all [jsNameStr]
    refine ⟨by rw [hv1]; rfl, fun _ => ⟨hvc, hv1, rfl⟩, fun hreg => ?_⟩
    rw [hru] at hreg
    exact Bool.noConfusion hreg

/-- Witness for C2: an unregistered name returns normally from both
dispatchers with the tagged unknown-function result, and a registered tool
over a throwing API returns an error-tagged result. -/
theorem dispatch_never_throws_witness :
    returnsOk (executeFunctionV1 envW ⟨Js.undef, some "noSuchTool", Js.obj []⟩) = true ∧
    (executeFunction envW ⟨Js.undef, some "noSuchTool", Js.undef⟩).1 =
        Js.str "❌ Unknown function: noSuchTool" ∧
    isErrorTagged (executeFunction envThrow ⟨Js.undef, some "searchBlockchain", Js.obj []⟩).1
        = true :=
  ⟨(dispatch_never_throws envW Js.undef Js.undef (some "noSuchTool") []).1,
   ((dispatch_never_throws envW Js.undef Js.undef (some "noSuchTool") []).2.1 (by decide)).1,
   (dispatch_never_throws envW Js.undef (Js.obj []) (some "searchBlockchain") []).2.2
     (by decide)⟩

/-- Counterexample to C3 as stated: `getAddressInfo` declares `address` as
required, yet a call whose arguments omit it is dispatched straight to the
handler (one handler invocation, not zero), and the result is the handler's
own failure string rather than any `InvalidArguments` validation error. -/
theorem missing_required_param_invokes_handler :
    (functionDeclarations.find? (fun d => d.name == "getAddressInfo")).map
        FunctionDecl.requiredParams = some ["address"] ∧
    jsGet (Js.obj []) "address" = Js.undef ∧
    executeFunction envThrow ⟨Js.undef, some "getAddressInfo", Js.obj []⟩ =
      (Js.str "❌ Error: boom", ["getAddressInfo"]) :=
  ⟨rfl, rfl, rfl⟩

/-- C3 (amended): the dispatcher performs no required-parameter validation;
every call to a registered tool invokes the underlying handler exactly
once, whatever arguments are supplied, and a missing required parameter is
simply read as `undefined`. -/
theorem executeFunction_no_validation (env : Env) (idj argsJ : Js) (s : String)
    (h : s ∈ registeredNames) :
    (executeFunction env ⟨idj, some s, argsJ⟩).2 = [s] := by
  simp [registeredNames, functionDeclarations] at h
  rcases h with rfl | rfl | rfl | rfl | rfl | rfl | rfl | rfl <;> rfl

/-- Witness for the amended C3: the required `address` parameter is absent,
yet the handler-invocation trace has length one. -/
theorem executeFunction_no_validation_witness :
    (executeFunction envThrow ⟨Js.undef, some "getAddressInfo", Js.obj []⟩).2 =
      ["getAddressInfo"] :=
  executeFunction_no_validation envThrow Js.undef (Js.obj []) "getAddressInfo" (by decide)

/-- C7: a model-API failure during a user turn is caught at the
orchestration-loop boundary of the interactive loop; the human-readable
`❌ Error:` line is reported for that input and the loop proceeds to await
the remaining inputs rather than exiting. -/
theorem model_failure_caught {σ : Type} (turn : σ → String → Except String σ) (st : σ)
    (input e : String) (rest : List String)
    (h1 : jsToLower input ≠ "exit") (h2 : turn st input = Except.error e) :
    startChatGo turn st (input :: rest) =
      ReplEvent.turnFailed input ("❌ Error: " ++ e) :: startChatGo turn st rest := by
  simp only [startChatGo]
  rw [if_neg h1, h2]

/-- Witness for C7: a turn that always fails with `network` reports the
error line and continues to the next input. -/
theorem model_failure_caught_witness :
    startChatGo turnFail () ["hi", "exit"] =
      ReplEvent.turnFailed "hi" "❌ Error: network" :: startChatGo turnFail () ["exit"] :=
  model_failure_caught turnFail () "hi" "network" ["exit"] (by decide) rfl

/-- C8: an input equal to the reserved literal `exit` under case-insensitive
comparison terminates the session immediately, and any other input line is
forwarded verbatim as the start of a new user turn (the head event of the
trace carries exactly that input). -/
theorem exit_terminates_or_forwards {σ : Type} (turn : σ → String → Except String σ) (st : σ)
    (input : String) (rest : List String) :
    (jsToLower input = "exit" → startChatGo turn st (input :: rest) = [ReplEvent.goodbye]) ∧
    (jsToLower input ≠ "exit" →
      ((startChatGo turn st (input :: rest)).head?.bind eventInput = some input)) := by
  constructor
  · intro h
    simp only [startChatGo]
    rw [if_pos h]
  · intro h
    simp only [startChatGo]
    rw [if_neg h]
    cases turn st input <;> rfl

/-- Witness for C8: the mixed-case `EXIT` terminates, and `hello` is
forwarded verbatim. -/
theorem exit_terminates_or_forwards_witness :
    startChatGo turnFail () ["EXIT"] = [ReplEvent.goodbye] ∧
    (startChatGo turnFail () ["hello"]).head?.bind eventInput = some "hello" :=
  ⟨(exit_terminates_or_forwards turnFail () "EXIT" []).1 (by decide),
   (exit_terminates_or_forwards turnFail () "hello" []).2 (by decide)⟩

set_option maxRecDepth 100000 in
/-- C4 (code bug): running the `src/unnamed/part_001` session in which the
first user turn performs one tool call and nineteen text-only turns follow
drives the history to forty-two entries; the length-based splice then drops
the model turn carrying the tool-call request while keeping its paired
function-response turn, so the surviving history holds an orphaned
tool-result turn at its head (no tool-call turn remains at all) among the
forty retained entries. -/
theorem trimHistory_splits_round_trip_pair :
    ((runSession envW [] sessionC4).any hasCallPart) = false ∧
    ((runSession envW [] sessionC4).any hasResponsePart) = true ∧
    ((runSession envW [] sessionC4).head?.map hasResponsePart) = some true ∧
    (runSession envW [] sessionC4).length = 40 := by
  refine ⟨?_, ?_, ?_, ?_⟩ <;> decide

/-- C10: a successful `searchBlockchain` call returns at most ten processed
results; its `truncated` flag is true exactly when the raw upstream item
count exceeds ten; `resolvedAddress` is null whenever the query does not
end in `.eth`; and when it does, `resolvedAddress` equals the `address` of
the first returned item of type `ens_domain` or `address` that carries a
truthy address field, or null when no returned item qualifies. -/
theorem searchBlockchain_success_shape (env : Env) (q : String) (respData : Js)
    (items : List Js)
    (hsearch : env.search (Js.str q) = ApiCall.resolved ⟨200, respData⟩)
    (hitems : jsGet respData "items" = Js.arr items) :
    jsGet (searchBlockchain env (Js.str q)) "results" =
        Js.arr ((items.take 10).map (processSearchItem q)) ∧
    ((items.take 10).map (processSearchItem q)).length ≤ 10 ∧
    jsGet (searchBlockchain env (Js.str q)) "truncated" =
        Js.bool (decide (items.length > 10)) ∧
    (jsEndsWith q ".eth" = false →
      jsGet (searchBlockchain env (Js.str q)) "resolvedAddress" = Js.null) ∧
    (jsEndsWith q ".eth" = true →
      jsGet (searchBlockchain env (Js.str q)) "resolvedAddress" =
        (match ((items.take 10).map (processSearchItem q)).find? returnedEnsPred with
         | some r => jsGet r "address"
         | none => Js.null)) := by
  have hsb : searchBlockchain env (Js.str q) = searchProcess q respData := by
    unfold searchBlockchain searchBlockchainBody
    rw [hsearch]
    simp [runCatch]
  have hji : jsItems respData = items := by
    unfold jsItems
    rw [hitems]
  rw [hsb]
  unfold searchProcess
  rw [hji]
  refine ⟨?_, ?_, ?_, ?_, ?_⟩
  · simp [jsGet, jsGetFields]
  · simp [List.length_take]
  · simp [jsGet, jsGetFields]
  · intro h
    simp [jsGet, jsGetFields, h]
  · intro h
    rw [findEns_processed]
    cases hf : (items.take 10).find? ensFindPred with
    | none => simp [jsGet, jsGetFields, h, hf]
    | some it =>
      have hp : ensFindPred it = true := List.find?_some hf
      have hty : (jsEqStr (jsGet it "type") "ens_domain" ||
          jsEqStr (jsGet it "type") "address") = true := by
        unfold ensFindPred at hp
        exact (Bool.and_eq_true_iff.mp hp).1
      have hpa := processSearchItem_address q it hty
      simp only [jsGet] at hpa
      simp [jsGet, jsGetFields, h, hf, hpa]

/-- Witness for C10 at a concrete environment: the query `vitalik.eth`
with two raw items, whose second item is the first address-bearing
`ens_domain` entry. -/
theorem searchBlockchain_success_shape_witness :
    jsGet (searchBlockchain envC10 (Js.str "vitalik.eth")) "results" =
        Js.arr ((itemsC10.take 10).map (processSearchItem "vitalik.eth")) ∧
    ((itemsC10.take 10).map (processSearchItem "vitalik.eth")).length ≤ 10 ∧
    jsGet (searchBlockchain envC10 (Js.str "vitalik.eth")) "truncated" =
        Js.bool (decide (itemsC10.length > 10)) ∧
    (jsEndsWith "vitalik.eth" ".eth" = false →
      jsGet (searchBlockchain envC10 (Js.str "vitalik.eth")) "resolvedAddress" = Js.null) ∧
    (jsEndsWith "vitalik.eth" ".eth" = true →
      jsGet (searchBlockchain envC10 (Js.str "vitalik.eth")) "resolvedAddress" =
        (match ((itemsC10.take 10).map (processSearchItem "vitalik.eth")).find?
            returnedEnsPred with
         | some r => jsGet r "address"
         | none => Js.null)) :=
  searchBlockchain_success_shape envC10 "vitalik.eth" (Js.obj [("items", Js.arr itemsC10)])
    itemsC10 rfl rfl
